import Mathlib

/-!
Verification of the lazythumbs image-transformation cache against its
natural-language specification.

The development shallowly embeds the two source modules:

* `lazythumbs/util.py`   — `geometry_parse`, `build_geometry`, the
  attribute-probing helper `quack` (specialised to the fixed property
  lists it is called with), and `compute_img`;
* `lazythumbs/views.py`  — `LazyThumbRenderer`: request validation, the
  cache hit / miss state machine of `get`, `render_and_save`,
  `cache_key` / `hash_`, and the image-level `thumbnail` / `resize`
  action methods.

Modelling conventions, stated once here and referenced below:

* Python integers are `Nat` (all dimensions come from `\d+` regex
  groups or PIL sizes, hence non-negative).  Python `None`-able values
  are `Option`.  Python truthiness is made explicit (`pyTruthyN`,
  empty string / `0` / `None` are falsy).
* External collaborators (Django cache, `FileSystemStorage`, PIL,
  `hashlib.md5`, `urlparse.urljoin`) are modelled as explicit state
  (`World`) or as function parameters of the embedding; every cache /
  storage operation is recorded in an access log so that claims of the
  form "no filesystem or cache access happens" are expressible.
* The source file contains several unbound-name slips that would raise
  `NameError` at runtime: `img_meta` for `source_meta` (views.py:79),
  `width`/`height` for `w`/`h` (views.py:75), `two_hundred` for the
  defined `two_hundered` (views.py:92), `four_hundred` for
  `four_oh_four` (views.py:100), `self.allowed_actions` for the
  property `_allowed_actions` (views.py:66), `action` free in
  `render_and_save` (views.py:116,118), and `img` for `img_path`
  (views.py:182,208).  These pure renaming slips are normalised to the
  variable they evidently denote, so that the control-flow and data
  logic of the code — which is what the claims are about — is exposed;
  each normalisation is noted at the definition it affects.  Genuine
  logic of the source (branch structure, crop boxes, truthiness tests,
  match anchoring, `finally`-return semantics) is embedded exactly as
  written, bugs included.
-/

/-! ## Python-semantics primitives -/

deriving instance DecidableEq for Except

/-- Fuel-driven digit expansion (structural recursion, so that
concrete evaluations reduce in the kernel); `natToDec` supplies
enough fuel for any input. -/
def natToDecAux (fuel : Nat) (n : Nat) : List Char :=
  match fuel with
  | 0 => []
  | fuel + 1 =>
    if n < 10 then [Nat.digitChar n]
    else natToDecAux fuel (n / 10) ++ [Nat.digitChar (n % 10)]

/-- Decimal digit list of a natural number, most significant first:
the output of Python `str()` on a non-negative `int` (no sign, no
leading zeros). -/
def natToDec (n : Nat) : List Char := natToDecAux (n + 1) n

/-- Python `str()` of a non-negative integer. -/
def decStr (n : Nat) : String := ⟨natToDec n⟩

/-- Numeric value of a decimal digit character. -/
def digitVal (c : Char) : Nat := c.toNat - 48

/-- Python `int()` on a string of decimal digits (the only use sites
feed it `\d+` regex groups). -/
def pyIntL (l : List Char) : Nat := l.foldl (fun a c => a * 10 + digitVal c) 0

/-- Python truthiness of an optional integer: `None` and `0` are falsy. -/
def pyTruthyN (x : Option Nat) : Bool :=
  match x with
  | none => false
  | some n => n != 0

/-- Python truthiness of an optional string: `None` and `''` are falsy. -/
def pyTruthyS (x : Option String) : Bool :=
  match x with
  | none => false
  | some s => s != ""

/-- Python `a or b` on optional integers: `a` when truthy, else `b`. -/
def pyOrN (a b : Option Nat) : Option Nat := if pyTruthyN a then a else b

/-- Python `str(x or '')` as used by `compute_img`'s `exit` lambda:
falsy values print as the empty string. -/
def pyStrOrEmpty (x : Option Nat) : String :=
  if pyTruthyN x then decStr (x.getD 0) else ""

/-- Python `str()` as applied by `'%s'` formatting to an optional int:
`None` prints as `"None"`. -/
def pyStrN (x : Option Nat) : String :=
  match x with
  | none => "None"
  | some n => decStr n

/-- Python `s.startswith(pre)` (a character-list implementation of
`String.startsWith`, kept kernel-reducible for concrete evaluation). -/
def strStarts (s pre : String) : Bool := pre.data.isPrefixOf s.data

/-- Python `s.endswith(suf)`. -/
def strEnds (s suf : String) : Bool := suf.data.isSuffixOf s.data

/-- Python slice `s[a:b]` for non-negative bounds. -/
def strSlice (s : String) (a b : Nat) : String := ⟨(s.data.take b).drop a⟩

/-- Two-argument POSIX `os.path.join`: an absolute second component
discards the first; otherwise the components are joined with a single
separator (an empty first component contributes nothing). -/
def pyOsJoin (a b : String) : String :=
  if strStarts b "/" then b
  else if a = "" then b
  else if strEnds a "/" then a ++ b
  else a ++ "/" ++ b

/-- Splits a character list at every occurrence of `c`
(Python `str.split(c)`; the result always has at least one part). -/
def splitChar (c : Char) : List Char → List (List Char)
  | [] => [[]]
  | a :: t =>
    match splitChar c t with
    | [] => [[]]
    | g :: gs => if a = c then [] :: g :: gs else (a :: g) :: gs

/-- Longest digit run at the head of a character list, with the rest:
the semantics of a leading greedy `\d+` / `\d*` in an anchored regex. -/
def splitDigits : List Char → List Char × List Char
  | [] => ([], [])
  | c :: t =>
    if c.isDigit then
      let p := splitDigits t
      (c :: p.1, p.2)
    else ([], c :: t)

/-! ## util.py — geometry parsing and canonicalisation -/

/-- Python `re.match(r'^(\d+)(?:x\d+)?$', s)`, returning the first
group: the whole string is a digit run, optionally followed by `x` and
a second digit run.  Greedy matching of the leading `\d+` coincides
with `splitDigits` because a shorter match would leave a digit where
`x` is required. -/
def widthMatch (cs : List Char) : Option (List Char) :=
  let p := splitDigits cs
  if p.1 = [] then none
  else
    match p.2 with
    | [] => some p.1
    | 'x' :: t => if t ≠ [] ∧ t.all Char.isDigit then some p.1 else none
    | _ => none

/-- Python `re.match(r'^(?:\d+)?x(\d+)$', s)`, returning the group:
an optional digit run, `x`, then a non-empty digit run to the end. -/
def heightMatch (cs : List Char) : Option (List Char) :=
  let p := splitDigits cs
  match p.2 with
  | 'x' :: t => if t ≠ [] ∧ t.all Char.isDigit then some t else none
  | _ => none

/-- Embedding of `util.geometry_parse(action, geometry, exc)`
(util.py:12-35).  Faithful points: the two regex matches; `raise exc`
when neither matches; `int()` on the matched groups; and the guard
`if not (width or height) and not action == 'thumbnail'` exactly as
written — with `or`, not `and`, so it only fires when *both* parsed
dimensions are falsy — followed by the two sequential assignments
`height = width or height; width = width or height` (the second one
reads the updated `height`). -/
def geometry_parse (action : String) (geometry : String) (exc : ε) :
    Except ε (Option Nat × Option Nat) :=
  let wm := widthMatch geometry.data
  let hm := heightMatch geometry.data
  if wm = none ∧ hm = none then .error exc
  else
    let width := wm.map pyIntL
    let height := hm.map pyIntL
    if ¬(pyTruthyN width ∨ pyTruthyN height) ∧ action ≠ "thumbnail" then
      let height1 := pyOrN width height
      let width1 := pyOrN width height1
      .ok (width1, height1)
    else
      .ok (width, height)

/-- Embedding of `util.build_geometry(width, height)` (util.py:38-44):
`"WxH"` when both are truthy, `"xH"` when width is falsy, else
`str(width)`.  `'%s'` of `None` would print `"None"` (`pyStrN`). -/
def build_geometry (width height : Option Nat) : String :=
  if pyTruthyN width ∧ pyTruthyN height then pyStrN width ++ "x" ++ pyStrN height
  else if ¬ pyTruthyN width then "x" ++ pyStrN height
  else pyStrN width

/-- Parse a geometry for the `thumbnail` action and rebuild the
canonical string from the result (the composition claim C10 is about). -/
def thumbRound (g : String) : Except Nat String :=
  (geometry_parse "thumbnail" g 0).map fun p => build_geometry p.1 p.2

/-! ## util.py — attribute probing and `compute_img` -/

/-- One level of attributes probed by `util.quack`: the url-like
properties `name`, `url`, `path` and the dimension properties `width`,
`height`.  An absent attribute is `none`; Python objects whose
attribute is present hold `some` value (presence of an attribute with
value `None` is not distinguished from absence — no claim depends on
it). -/
structure AttrLevel where
  name : Option String := none
  url : Option String := none
  path : Option String := none
  width : Option Nat := none
  height : Option Nat := none
deriving DecidableEq, Repr

/-- A source-descriptor object as probed by `compute_img`: its own
attributes plus the optional one-level nested containers `photo` and
`image` (the `levels` argument `['photo', 'image']` of every `quack`
call in `compute_img`). -/
structure ImgObject where
  attrs : AttrLevel
  photo : Option AttrLevel := none
  image : Option AttrLevel := none
deriving DecidableEq, Repr

/-- The argument of `compute_img`: either a bare URL string
(`type(thing) == type('')`, util.py:95) or an object. -/
inductive Descriptor where
  | strD (s : String)
  | objD (o : ImgObject)
deriving DecidableEq, Repr

/-- First present attribute among `name`, `url`, `path` of one level
(`quack`'s per-level scan in preference order; a present-but-empty
value is returned, not skipped). -/
def levelUrl (t : AttrLevel) : Option String := t.name <|> t.url <|> t.path

/-- Embedding of `quack(img_object, ['name', 'url', 'path'],
['photo', 'image'])` (util.py:99): scan the object itself, then its
`photo`, then its `image` container. -/
def quackUrl (o : ImgObject) : Option String :=
  levelUrl o.attrs <|> o.photo.bind levelUrl <|> o.image.bind levelUrl

/-- Embedding of `source_width` (util.py:89):
`quack(t, ['width'], ['photo', 'image'], '')`; the falsy default `''`
is modelled as `none`. -/
def quackW (o : ImgObject) : Option Nat :=
  o.attrs.width <|> o.photo.bind (·.width) <|> o.image.bind (·.width)

/-- Embedding of `source_height` (util.py:90). -/
def quackH (o : ImgObject) : Option Nat :=
  o.attrs.height <|> o.photo.bind (·.height) <|> o.image.bind (·.height)

/-- Result dictionary of `compute_img`: `srcDict` is the normal
`exit` lambda shape with keys `src`/`width`/`height` (util.py:91);
`urlDict` is the not-locally-transformable early return whose first
key is `url`, not `src` (util.py:110, as written). -/
inductive ImgResult where
  | srcDict (src width height : String)
  | urlDict (url width height : String)
deriving DecidableEq, Repr

/-- Configuration and external capabilities consumed by
`compute_img`: `settings.MEDIA_URL`, `getattr(settings,
'LAZYTHUMBS_URL', '/')`, the `LAZYTHUMBS_DUMMY` toggle, and the
library function `urlparse.urljoin` passed in as an opaque function.
-/
structure CCfg where
  mediaUrl : String
  lazyUrl : String
  dummy : Bool
  urljoin : String → String → String

/-- The `exit` lambda of `compute_img` (util.py:91):
`dict(src=urljoin(MEDIA_URL, u), width=str(w or ''), height=str(h or ''))`. -/
def exitD (cfg : CCfg) (u : String) (w h : Option Nat) : ImgResult :=
  .srcDict (cfg.urljoin cfg.mediaUrl u) (pyStrOrEmpty w) (pyStrOrEmpty h)

/-- Python `s.replace(pat, '')`: erase every (non-overlapping,
leftmost-first) occurrence of `pat`.  An empty pattern erases
nothing, as in Python. -/
def eraseAll (pat : List Char) : List Char → List Char
  | [] => []
  | c :: t =>
    if pat.isPrefixOf (c :: t) ∧ pat ≠ [] then
      eraseAll pat (t.drop (pat.length - 1))
    else c :: eraseAll pat t
termination_by l => l.length
decreasing_by
  · simp only [List.length_cons]
    have := List.length_drop (pat.length - 1) t
    omega
  · simp only [List.length_cons]; omega

/-- The `scale` lambda of `compute_img` (util.py:127):
`int(a * (float(b) / c))`.  Modelled as exact floor division; the
floating-point rounding of the source can differ on large inputs, but
no claim below depends on a value of `scale` (the claims that reach
`compute_img` either pass no object or pass both dimensions, so the
derivation block never rewrites a dimension).  Division by a falsy
`c`, which would raise in Python, is likewise never exercised. -/
def pyScale (a b c : Nat) : Nat := a * b / c

/-- The `thumbnail` dimension-derivation block of `compute_img`
(util.py:125-137): a falsy width is recomputed from the height when
the source width is known, then a falsy height is recomputed from the
(possibly just updated) width when the source height is known. -/
def thumbDerive (o : ImgObject) (width height : Option Nat) : Option Nat × Option Nat :=
  let width1 :=
    if ¬ pyTruthyN width then
      if pyTruthyN (quackW o) then
        some (pyScale ((quackW o).getD 0) (height.getD 0) ((quackH o).getD 0))
      else width
    else width
  let height1 :=
    if ¬ pyTruthyN height then
      if pyTruthyN (quackH o) then
        some (pyScale ((quackH o).getD 0) (width1.getD 0) ((quackW o).getD 0))
      else height
    else height
  (width1, height1)

/-- Embedding of `util.compute_img(thing, action, geometry)`
(util.py:84-156), branch for branch:

1. a string descriptor is its own URL, an object is probed with
   `quackUrl`;
2. a falsy URL exits early with the source's natural dimensions (the
   source would pass `None` to `urljoin` when no URL resolved at all —
   a library error it never guards against; modelled as `""`, not
   relied on by any claim);
3. an `http`-prefixed URL has `MEDIA_URL` erased; if still
   `http`-prefixed it is returned as the `url`-keyed dictionary;
4. geometry-parse failure exits early with natural dimensions;
5. for `thumbnail` with an object, missing dimensions are derived
   (`thumbDerive`);
6. the upscale guard compares the (post-derivation) dimensions with
   the source's natural ones and exits early on any `≥`;
7. otherwise the render URL embeds the **raw** `geometry` argument —
   `'%slt_cache/%s/%s/%s' % (LAZYTHUMBS_URL, action, geometry, url)` —
   not the output of `build_geometry`, which nothing in the source
   ever calls;
8. dummy mode substitutes a placekitten URL. -/
def compute_img (cfg : CCfg) (thing : Descriptor) (action geometry : String) : ImgResult :=
  let imgObject : Option ImgObject :=
    match thing with | .strD _ => none | .objD o => some o
  let url0 : Option String :=
    match thing with | .strD s => some s | .objD o => quackUrl o
  let sW : Option Nat := imgObject.bind quackW
  let sH : Option Nat := imgObject.bind quackH
  if ¬ pyTruthyS url0 then exitD cfg (url0.getD "") sW sH
  else
    let url1 := url0.getD ""
    let url2 := if strStarts url1 "http" then ⟨eraseAll cfg.mediaUrl.data url1.data⟩ else url1
    if strStarts url1 "http" ∧ strStarts url2 "http" then .urlDict url2 "" ""
    else
      match geometry_parse action geometry () with
      | .error _ => exitD cfg url2 sW sH
      | .ok wh =>
        let d :=
          if action = "thumbnail" then
            match imgObject with
            | some o => thumbDerive o wh.1 wh.2
            | none => wh
          else wh
        let w1 := d.1
        let h1 := d.2
        let src := cfg.lazyUrl ++ "lt_cache/" ++ action ++ "/" ++ geometry ++ "/" ++ url2
        let src2 :=
          if cfg.dummy then "http://placekitten.com/" ++ pyStrN w1 ++ "/" ++ pyStrN h1
          else src
        match imgObject with
        | some o =>
          if pyTruthyN sW ∧ pyTruthyN w1 ∧ sW.getD 0 ≤ w1.getD 0 then
            exitD cfg url2 sW sH
          else if pyTruthyN sH ∧ pyTruthyN h1 ∧ sH.getD 0 ≤ h1.getD 0 then
            -- `s_w or source_width(img_object)`: both operands are `quackW o`
            exitD cfg url2 (pyOrN (quackW o) (quackW o)) sH
          else exitD cfg src2 w1 h1
        | none => exitD cfg src2 w1 h1

/-! ## views.py — collaborator state and access log -/

/-- One recorded access to an external collaborator: the metadata
cache (`django.core.cache`) or the `FileSystemStorage` instance. -/
inductive Op where
  | cacheGetOp (key : String)
  | cacheSetOp (key : String)
  | fsOpenOp (p : String)
  | fsExistsOp (p : String)
  | fsSaveOp (p : String)
deriving DecidableEq, Repr

/-- The decoded metadata record stored in the cache
(views.py:97,101): `dict(rendered_path=…, was_404=…)`.  The JSON
round-trip through `json.dumps`/`json.loads` is modelled as the
identity on this record. -/
structure SourceMeta where
  renderedPath : String
  was404 : Bool
deriving DecidableEq, Repr

/-- Combined external state: the metadata cache, the storage contents
(a literal path → bytes map; real-filesystem path resolution is not
modelled, a stored key stands for the file the path resolves to), the
set of paths for which `FileSystemStorage` would raise
`SuspiciousOperation`, a flag making `fs.save` fail (storage-write
failure), and the chronological access log.  TTLs are not modelled:
every cache entry present is an unexpired one, which is exactly the
premise of the claims that mention expiry. -/
structure World where
  cache : List (String × SourceMeta)
  files : List (String × String)
  suspicious : List String
  saveFails : Bool
  log : List Op
deriving DecidableEq, Repr

/-- Association-list lookup (first binding wins, so prepending
overwrites). -/
def lookupA {α : Type} : List (String × α) → String → Option α
  | [], _ => none
  | (a, b) :: t, k => if a = k then some b else lookupA t k

/-- `cache.get(key)` (views.py:76), logged. -/
def cacheGetW (w : World) (key : String) : Option SourceMeta × World :=
  (lookupA w.cache key, { w with log := w.log ++ [.cacheGetOp key] })

/-- `cache.set(key, json.dumps(meta), expires)` (views.py:104), logged. -/
def cacheSetW (w : World) (key : String) (m : SourceMeta) : World :=
  { w with cache := (key, m) :: w.cache, log := w.log ++ [.cacheSetOp key] }

/-- Failure modes of `FileSystemStorage.open`: a missing file raises
`IOError`; a path escaping the storage root raises
`SuspiciousOperation` (which paths do so is deployment configuration,
carried in `World.suspicious`). -/
inductive OpenErr where
  | ioErr
  | suspiciousErr
deriving DecidableEq, Repr

/-- `self.fs.open(path)` followed by `.read()` (views.py:85-86), logged. -/
def fsOpenW (w : World) (p : String) : Except OpenErr String × World :=
  (if p ∈ w.suspicious then .error .suspiciousErr
   else match lookupA w.files p with
     | some d => .ok d
     | none => .error .ioErr,
   { w with log := w.log ++ [.fsOpenOp p] })

/-- `self.fs.exists(path)` (views.py:94), logged. -/
def fsExistsW (w : World) (p : String) : Bool × World :=
  ((lookupA w.files p).isSome, { w with log := w.log ++ [.fsExistsOp p] })

/-- `self.fs.save(path, ContentFile(data))` (views.py:119), logged;
fails (raises `IOError`) when the world says storage writes fail. -/
def fsSaveW (w : World) (p : String) (d : String) : Except Unit Unit × World :=
  if w.saveFails then (.error (), { w with log := w.log ++ [.fsSaveOp p] })
  else (.ok (), { w with files := (p, d) :: w.files, log := w.log ++ [.fsSaveOp p] })

/-! ## views.py — `LazyThumbRenderer` -/

/-- Python exceptions that escape or are raised by the embedded code. -/
inductive PyErr where
  | nameErr
  | typeErr
  | renderErr
  | saveErr
deriving DecidableEq, Repr

/-- The `HttpResponse` outcomes of `get`: `ok200` is `two_hundered`
(image bytes, positive Cache-Control), `notFound` is `four_oh_four`,
and `pyError` is an exception escaping the view (Django's 500). -/
inductive Resp where
  | ok200 (data : String)
  | notFound
  | pyError (e : PyErr)
deriving DecidableEq, Repr

namespace LazyThumbRenderer

/-- The allowed-action registry `_allowed_actions` (views.py:35-45):
the methods tagged with the `@action` decorator, namely `thumbnail`
(views.py:170) and `resize` (views.py:197).  The call site
views.py:66 writes `self.allowed_actions`; normalised to this
property. -/
def allowedActions : List String := ["resize", "thumbnail"]

/-- Configuration and capabilities of the `get` flow:
the two path-prefix settings (`THUMBNAIL_SOURCE_PATH`, views.py:59,
and `LAZYTHUMB_SOURCE_PATH`, views.py:82), a working digest function
standing in for `hash_` — the literal `hash_` raises `TypeError` on
every call (see `hash_` below and claim C7), so the state-machine
claims are settled against a `get` parameterised by the digest it was
evidently meant to compute — and the dispatched `action_` method
(PIL decode/resample/encode, an external capability that may fail).
`render` receives the source path and the *string* width/height that
`get` slices out of the geometry (views.py:70-73). -/
structure GetCfg where
  thumbRoot : String
  lazyRoot : String
  digest : String → String → String → Option String → String
  render : String → String → Option String → Except Unit String

/-- The naive geometry split of `get` (views.py:69-73):
`w, h = geometry.split('x')`, falling back to `w = geometry; h = None`
on `ValueError` (any number of parts other than two). -/
def pySplitX (g : String) : String × Option String :=
  match splitChar 'x' g.data with
  | [a, b] => (⟨a⟩, some ⟨b⟩)
  | _ => (g, none)

/-- The sharded storage path `'%s/%s/%s' % (hash[0:2], hash[2:4], hash)`
(views.py:117). -/
def hashShard (h : String) : String :=
  strSlice h 0 2 ++ "/" ++ strSlice h 2 4 ++ "/" ++ h

/-- Embedding of `render_and_save(img_path, width, height)`
(views.py:108-121): derive the sharded path from the digest, run the
action method, save the bytes.  The source reads the free name
`action` here (views.py:116,118); normalised to an explicit argument
supplied by the caller `get`.  A failing action raises out
(`renderErr`); a failing save raises `IOError` out (`saveErr`);
nothing is cached here. -/
def render_and_save (cfg : GetCfg) (w : World) (imgPath action wS : String)
    (hS : Option String) : Except PyErr (String × String) × World :=
  let ah := cfg.digest imgPath action wS hS
  let rp := hashShard ah
  match cfg.render imgPath wS hS with
  | .error _ => (.error .renderErr, w)
  | .ok raw =>
    match fsSaveW w rp raw with
    | (.ok _, w1) => (.ok (rp, raw), w1)
    | (.error _, w1) => (.error .saveErr, w1)

/-- Embedding of `LazyThumbRenderer.get` (views.py:47-106).

Validation (views.py:59-67): the requested path is first joined onto
`THUMBNAIL_SOURCE_PATH`; the *joined* path is then tested with
`startswith('/')` and with `re.match('\.\./', …)` — `re.match`
anchors at the start, so only a joined path that *begins* with `../`
is rejected; a traversal segment after the prefix passes.  Unknown
actions 404.  All three rejections happen before any cache or
filesystem access (the world is returned untouched).

Cache hit (views.py:78-92): the stored record's `was_404` flag is
read into a local and **never consulted**; the code uncritically
joins `LAZYTHUMB_SOURCE_PATH` with the recorded `rendered_path`
(empty for a negative record) and opens it from storage.  The
`try/except/finally` block ends in `finally: return
self.two_hundred(raw_data)`, whose `return` supersedes both the
`except SuspiciousOperation` 404-return and any exception escaping
`render_and_save`; in those two situations `raw_data` is unbound and
the `finally` itself raises `NameError`.  (`json.loads(img_meta)` at
views.py:79 reads the unbound name `img_meta`; normalised to
`source_meta`.  `width`/`height` at views.py:75,88,95 are normalised
to the `w`/`h` bound at views.py:70-73, and `two_hundred` to the
method spelled `two_hundered`.)

Cache miss (views.py:94-104): render-and-save then respond 200 and
only then set positive metadata; or respond 404 and set negative
metadata (`four_hundred` at views.py:100 normalised to
`four_oh_four`).  An exception from `render_and_save` propagates
before `cache.set` is reached. -/
def get (cfg : GetCfg) (w0 : World) (action geometry sourcePath : String) :
    Resp × World :=
  let sp := pyOsJoin cfg.thumbRoot sourcePath
  if strStarts sp "/" then (.notFound, w0)
  else if strStarts sp "../" then (.notFound, w0)
  else if ¬ (action ∈ allowedActions) then (.notFound, w0)
  else
    let wS := (pySplitX geometry).1
    let hS := (pySplitX geometry).2
    let key := "lazythumbs:" ++ cfg.digest sp action wS hS
    let looked := cacheGetW w0 key
    match lookupA w0.cache key with
    | some meta =>
      let rp := pyOsJoin cfg.lazyRoot meta.renderedPath
      let opened := fsOpenW looked.2 rp
      match opened.1 with
      | .ok data => (.ok200 data, opened.2)
      | .error .ioErr =>
        let rs := render_and_save cfg opened.2 sp action wS hS
        match rs.1 with
        | .ok pr => (.ok200 pr.2, rs.2)
        | .error _ => (.pyError .nameErr, rs.2)
      | .error .suspiciousErr => (.pyError .nameErr, opened.2)
    | none =>
      let existed := fsExistsW looked.2 sp
      if existed.1 then
        let rs := render_and_save cfg existed.2 sp action wS hS
        match rs.1 with
        | .ok pr => (.ok200 pr.2, cacheSetW rs.2 key ⟨pr.1, false⟩)
        | .error e => (.pyError e, rs.2)
      else
        (.notFound, cacheSetW existed.2 key ⟨"", true⟩)

/-- Number of `%s` conversion specifiers in a format string. -/
def specCount : List Char → Nat
  | '%' :: 's' :: t => specCount t + 1
  | _ :: t => specCount t
  | [] => 0

/-- Python `fmt % arg` with a single (non-tuple) right operand:
substitutes `arg` for the sole `%s`, and raises `TypeError: not
enough arguments for format string` when the format has more than one
specifier. -/
def pyFormatSingle (fmt : String) (arg : String) : Except PyErr String :=
  if specCount fmt.data = 1 then .ok (⟨eraseAll "%s".data fmt.data⟩ ++ arg)
  else .error .typeErr

/-- Embedding of `hash_(img_path, action, width, height)`
(views.py:136-147) exactly as written:
`md5('%s:%s:%s:%s' % img_path, action, width, height)`.  The missing
parentheses make `%` format a four-specifier string with the single
argument `img_path`, which raises `TypeError`; even if it did not,
`md5` itself is called with four arguments, a second `TypeError`.
The call therefore never produces a digest. -/
def hash_ (imgPath action wS : String) (hS : Option String) : Except PyErr String :=
  match pyFormatSingle "%s:%s:%s:%s" imgPath with
  | .error e => .error e
  | .ok _ =>
    -- hashlib.md5 accepts at most one argument; here it receives four
    .error .typeErr

/-- Embedding of `cache_key(img_path, action, width, height)`
(views.py:123-134): `'lazythumbs:%s' % self.hash_(…)`. -/
def cache_key (imgPath action wS : String) (hS : Option String) : Except PyErr String :=
  (hash_ imgPath action wS hS).map fun h => "lazythumbs:" ++ h

/-- A PIL image reduced to what the claims observe: its size.
`size[0]` is the width, `size[1]` the height. -/
structure PILImage where
  w : Nat
  h : Nat
deriving DecidableEq, Repr

/-- Embedding of the `thumbnail` action method (views.py:170-195) at
the image level (`Image.open(img)` at views.py:182 reads the unbound
`img`; normalised to the image at `img_path`, supplied directly):

* when no height is requested, `do_crop` is set and the height is
  derived as `int(img.size[1] * (float(width) / img.size[0]))` —
  modelled as exact floor division, which agrees with the binary
  floating-point computation on the 200×100 source of claim C1
  (`float(100)/200` and `100*0.5` are exact);
* `width = min(width, img.size[1])` and
  `height = min(height, img.size[0])` exactly as written — each
  dimension is clamped against the **other** axis of the source;
* resize to `(width, height)`;
* when `do_crop`, crop to the box `(0, 0, width, width)` exactly as
  written — a `width × width` box; PIL pads a crop box that exceeds
  the image, so the result has the box's size. -/
def thumbnail (img : PILImage) (width : Nat) (height : Option Nat) : PILImage :=
  let do_crop := height.isNone
  let height1 :=
    match height with
    | none => img.h * width / img.w
    | some hh => hh
  let width2 := min width img.h
  let height2 := min height1 img.w
  let resized : PILImage := ⟨width2, height2⟩
  if do_crop then ⟨width2, width2⟩ else resized

/-- Embedding of the `resize` action method (views.py:197-209):
resize directly to the requested box. -/
def resize (img : PILImage) (width height : Nat) : PILImage :=
  ⟨width, height⟩

end LazyThumbRenderer

/-! ## C5 — `geometry_parse` evaluations -/

/-- C5: `geometry_parse` returns (100,50) for thumbnail on "100x50",
(100,None) for thumbnail on "100", (None,50) for both actions on
"x50", and raises the supplied exception on "bogus" — but for `resize`
on "100" it returns (100,None), **not** (100,100) as the claim (and
the function's own docstring, util.py:19) state: the guard
`if not (width or height)` can never fire when a width was parsed, so
the missing dimension is never defaulted to the given one. -/
theorem c5_geometry_parse_eval :
    geometry_parse "thumbnail" "100x50" 0 = .ok (some 100, some 50) ∧
    geometry_parse "thumbnail" "100" 0 = .ok (some 100, none) ∧
    geometry_parse "thumbnail" "x50" 0 = .ok (none, some 50) ∧
    geometry_parse "resize" "x50" 0 = .ok (none, some 50) ∧
    geometry_parse "thumbnail" "bogus" 0 = .error 0 ∧
    geometry_parse "resize" "bogus" 0 = .error 0 ∧
    geometry_parse "resize" "100" 0 = .ok (some 100, none) ∧
    geometry_parse "resize" "100" 0 ≠ .ok (some 100, some 100) := by
  refine ⟨rfl, rfl, rfl, rfl, rfl, rfl, rfl, fun h => ?_⟩
  rw [show geometry_parse "resize" "100" 0 = .ok (some 100, none) from rfl] at h
  simp at h

/-! ## C1 — the `thumbnail` action on a 200×100 source -/

/-- C1: on a 200×100 source with requested width 100 and no height,
`thumbnail` derives height 50 and resizes to 100×50, but then crops
with the box `(0, 0, width, width)` (views.py:193), so the result is
100×100 — not the 100×50 the claim (and the spec's crop-to-target-box
policy) states.  (The clamping at views.py:187-188 is also swapped —
width is clamped by the source height and height by the source width
— though on this input the swapped clamps happen to be inactive.) -/
theorem c1_thumbnail_crop_is_square :
    LazyThumbRenderer.thumbnail ⟨200, 100⟩ 100 none = ⟨100, 100⟩ ∧
    LazyThumbRenderer.thumbnail ⟨200, 100⟩ 100 none ≠ ⟨100, 50⟩ := by
  refine ⟨rfl, fun h => ?_⟩
  rw [show LazyThumbRenderer.thumbnail ⟨200, 100⟩ 100 none = ⟨100, 100⟩ from rfl] at h
  simp at h

/-! ## C2 — negative cache hit -/

/-- Request configuration for the negative-hit scenario: empty path
prefixes, a digest function returning `"d"`, and a render capability
that fails (the source image does not exist, so `Image.open` inside
the action method raises). -/
def c2cfg : LazyThumbRenderer.GetCfg :=
  { thumbRoot := ""
    lazyRoot := ""
    digest := fun _ _ _ _ => "d"
    render := fun _ _ _ => .error () }

/-- World for the negative-hit scenario: the cache holds an unexpired
negative record (`was_404 = true`, empty rendered path) under the
derived key, storage is empty, nothing else pending. -/
def c2world : World :=
  { cache := [("lazythumbs:d", ⟨"", true⟩)]
    files := []
    suspicious := []
    saveFails := false
    log := [] }

/-- C2: on an unexpired negative cache hit the code does **not**
serve NotFound and does **not** leave storage untouched: `was_404` is
read and ignored, storage is opened at the joined empty rendered
path, a re-render of the missing source is attempted, and the request
ends in an error (`raw_data` is unbound when the `finally`-return
runs).  The log shows the storage `open` call the claim forbids, and
the response is an error, not NotFound. -/
theorem c2_negative_hit_opens_storage :
    (LazyThumbRenderer.get c2cfg c2world "thumbnail" "100" "img.jpg").1 =
      .pyError .nameErr ∧
    (LazyThumbRenderer.get c2cfg c2world "thumbnail" "100" "img.jpg").2.log =
      [.cacheGetOp "lazythumbs:d", .fsOpenOp ""] := by
  decide

/-! ## C7 — cache-key derivation -/

/-- C7: `hash_` (and with it `cache_key`) never produces a key at
all: `'%s:%s:%s:%s' % img_path` formats a four-specifier string with
the single argument `img_path` — a `TypeError` — and `md5` is in any
case called with four arguments instead of one (views.py:146).  Key
derivation is therefore not a function of the inputs; every call
raises. -/
theorem c7_hash_raises_typeerror :
    LazyThumbRenderer.hash_ "img.jpg" "thumbnail" "100" (some "50") =
      .error .typeErr ∧
    LazyThumbRenderer.cache_key "img.jpg" "thumbnail" "100" (some "50") =
      .error .typeErr := by
  exact ⟨rfl, rfl⟩

/-! ## C3 — request validation -/

/-- Request configuration for the validation scenarios: source prefix
`"media"`, working digest and render capabilities. -/
def c3cfg : LazyThumbRenderer.GetCfg :=
  { thumbRoot := "media"
    lazyRoot := ""
    digest := fun _ _ _ _ => "abcdef"
    render := fun _ _ _ => .ok "RENDERED" }

/-- World for the validation scenarios: empty cache; storage holds a
file reachable through the traversal path `media/../secret`. -/
def c3world : World :=
  { cache := []
    files := [("media/../secret", "TOPSECRET")]
    suspicious := []
    saveFails := false
    log := [] }

/-- C3 counterexample: the request for source path `"../secret"` —
which contains (indeed begins with) a parent-directory segment — is
*not* rejected: `re.match('\.\./', …)` is applied to the *joined*
path `media/../secret`, which does not start with `../`, so
validation passes, the cache and the filesystem are accessed, the
source is rendered and served with 200. -/
theorem c3_traversal_request_served :
    (LazyThumbRenderer.get c3cfg c3world "thumbnail" "100" "../secret").1 =
      .ok200 "RENDERED" ∧
    (LazyThumbRenderer.get c3cfg c3world "thumbnail" "100" "../secret").2.log =
      [.cacheGetOp "lazythumbs:abcdef", .fsExistsOp "media/../secret",
       .fsSaveOp "ab/cd/abcdef", .cacheSetOp "lazythumbs:abcdef"] := by
  decide

/-- C3 as amended: the checks the code *does* perform — a joined path
beginning with `/`, a joined path beginning with `../`, or an action
outside the registry — produce a NotFound response with the world
completely untouched (no filesystem or metadata-cache access). -/
theorem c3_rejections_precede_all_access (cfg : LazyThumbRenderer.GetCfg)
    (w : World) (action geometry sourcePath : String)
    (h : strStarts (pyOsJoin cfg.thumbRoot sourcePath) "/" = true ∨
      strStarts (pyOsJoin cfg.thumbRoot sourcePath) "../" = true ∨
      action ∉ LazyThumbRenderer.allowedActions) :
    LazyThumbRenderer.get cfg w action geometry sourcePath = (.notFound, w) := by
  rcases h with h | h | h
  · simp [LazyThumbRenderer.get, h]
  · by_cases h1 : strStarts (pyOsJoin cfg.thumbRoot sourcePath) "/" = true <;>
      simp [LazyThumbRenderer.get, h, h1]
  · by_cases h1 : strStarts (pyOsJoin cfg.thumbRoot sourcePath) "/" = true <;>
      by_cases h2 : strStarts (pyOsJoin cfg.thumbRoot sourcePath) "../" = true <;>
      simp [LazyThumbRenderer.get, h, h1, h2]

/-- Witness for the amended C3 at a concrete input: a request for the
absolute path `/etc/passwd` is rejected with NotFound and the world
is returned untouched. -/
theorem c3_rejections_witness :
    (strStarts (pyOsJoin c3cfg.thumbRoot "/etc/passwd") "/" = true ∨
      strStarts (pyOsJoin c3cfg.thumbRoot "/etc/passwd") "../" = true ∨
      "thumbnail" ∉ LazyThumbRenderer.allowedActions) ∧
    LazyThumbRenderer.get c3cfg c3world "thumbnail" "100" "/etc/passwd" =
      (.notFound, c3world) := by
  exact ⟨Or.inl (by decide),
    c3_rejections_precede_all_access c3cfg c3world "thumbnail" "100" "/etc/passwd"
      (Or.inl (by decide))⟩

/-! ## C4 — positive hit with the asset missing from storage -/

/-- Configuration for the positive-hit scenario: distinct source and
rendered-asset prefixes, a digest returning `"abcdef"`, and a render
capability producing fresh bytes. -/
def c4cfg : LazyThumbRenderer.GetCfg :=
  { thumbRoot := "src"
    lazyRoot := "lt"
    digest := fun _ _ _ _ => "abcdef"
    render := fun _ _ _ => .ok "NEWBYTES" }

/-- World for the positive-hit scenario: the cache holds a positive
record pointing at `r.jpg`, which is *not* in storage; the source
image is. -/
def c4world : World :=
  { cache := [("lazythumbs:abcdef", ⟨"r.jpg", false⟩)]
    files := [("src/img.jpg", "RAW")]
    suspicious := []
    saveFails := false
    log := [] }

/-- C4 counterexample: on a positive cache hit whose asset is missing
from storage the code does re-render and serve the fresh bytes, but
the metadata record is **not** re-set: the `finally`-return leaves the
hit branch before the `cache.set` at views.py:104 is ever reached.
The final cache equals the initial one and the log contains no cache
write, refuting the claim's "re-sets the metadata record for the
key". -/
theorem c4_hit_missing_asset_no_reset :
    (LazyThumbRenderer.get c4cfg c4world "thumbnail" "100x50" "img.jpg").1 =
      .ok200 "NEWBYTES" ∧
    (LazyThumbRenderer.get c4cfg c4world "thumbnail" "100x50" "img.jpg").2.cache =
      c4world.cache ∧
    (LazyThumbRenderer.get c4cfg c4world "thumbnail" "100x50" "img.jpg").2.log =
      [.cacheGetOp "lazythumbs:abcdef", .fsOpenOp "lt/r.jpg",
       .fsSaveOp "ab/cd/abcdef"] := by
  decide

/-- C4 as amended: on a positive cache hit whose rendered asset is
physically absent from Storage, the request does not error — the
image is re-rendered, the bytes are re-persisted to Storage under the
digest-sharded path and served with 200 — but the metadata record for
the key is left exactly as it was (the cache is unchanged). -/
theorem c4_hit_missing_asset_rerenders (cfg : LazyThumbRenderer.GetCfg)
    (w0 : World) (action geometry sourcePath raw : String) (meta : SourceMeta)
    (hv1 : strStarts (pyOsJoin cfg.thumbRoot sourcePath) "/" = false)
    (hv2 : strStarts (pyOsJoin cfg.thumbRoot sourcePath) "../" = false)
    (hv3 : action ∈ LazyThumbRenderer.allowedActions)
    (hmeta : lookupA w0.cache ("lazythumbs:" ++ cfg.digest
      (pyOsJoin cfg.thumbRoot sourcePath) action
      (LazyThumbRenderer.pySplitX geometry).1
      (LazyThumbRenderer.pySplitX geometry).2) = some meta)
    (hsusp : pyOsJoin cfg.lazyRoot meta.renderedPath ∉ w0.suspicious)
    (habsent : lookupA w0.files (pyOsJoin cfg.lazyRoot meta.renderedPath) = none)
    (hrender : cfg.render (pyOsJoin cfg.thumbRoot sourcePath)
      (LazyThumbRenderer.pySplitX geometry).1
      (LazyThumbRenderer.pySplitX geometry).2 = .ok raw)
    (hsave : w0.saveFails = false) :
    (LazyThumbRenderer.get cfg w0 action geometry sourcePath).1 = .ok200 raw ∧
    (LazyThumbRenderer.get cfg w0 action geometry sourcePath).2.cache = w0.cache ∧
    lookupA (LazyThumbRenderer.get cfg w0 action geometry sourcePath).2.files
      (LazyThumbRenderer.hashShard (cfg.digest
        (pyOsJoin cfg.thumbRoot sourcePath) action
        (LazyThumbRenderer.pySplitX geometry).1
        (LazyThumbRenderer.pySplitX geometry).2)) = some raw := by
  simp [LazyThumbRenderer.get, LazyThumbRenderer.render_and_save, cacheGetW,
    fsOpenW, fsSaveW, lookupA, hv1, hv2, hv3, hmeta, hsusp, habsent, hrender,
    hsave]

/-- Witness for the amended C4 at the concrete positive-hit scenario. -/
theorem c4_hit_missing_asset_witness :
    lookupA c4world.cache ("lazythumbs:" ++ c4cfg.digest
      (pyOsJoin c4cfg.thumbRoot "img.jpg") "thumbnail"
      (LazyThumbRenderer.pySplitX "100x50").1
      (LazyThumbRenderer.pySplitX "100x50").2) = some ⟨"r.jpg", false⟩ ∧
    (LazyThumbRenderer.get c4cfg c4world "thumbnail" "100x50" "img.jpg").1 =
      .ok200 "NEWBYTES" ∧
    (LazyThumbRenderer.get c4cfg c4world "thumbnail" "100x50" "img.jpg").2.cache =
      c4world.cache ∧
    lookupA (LazyThumbRenderer.get c4cfg c4world "thumbnail" "100x50" "img.jpg").2.files
      (LazyThumbRenderer.hashShard (c4cfg.digest
        (pyOsJoin c4cfg.thumbRoot "img.jpg") "thumbnail"
        (LazyThumbRenderer.pySplitX "100x50").1
        (LazyThumbRenderer.pySplitX "100x50").2)) = some "NEWBYTES" := by
  refine ⟨by decide, ?_⟩
  exact c4_hit_missing_asset_rerenders c4cfg c4world "thumbnail" "100x50"
    "img.jpg" "NEWBYTES" ⟨"r.jpg", false⟩ (by decide) (by decide) (by decide)
    (by decide) (by decide) (by decide) (by decide) (by decide)

/-! ## C6 — render URL and geometry canonicalisation -/

/-- Configuration for the `compute_img` scenarios: media prefix
`/media/`, render base `/`, dummy mode off, `urljoin` instantiated
with string concatenation. -/
def c6cfg : CCfg :=
  { mediaUrl := "/media/"
    lazyUrl := "/"
    dummy := false
    urljoin := fun a b => a ++ b }

/-- C6 counterexample: under `resize`, the geometry strings `"100"`
and `"100x100"` denote the same target box, yet `compute_img` builds
two different render URLs, because util.py:151 interpolates the raw
`geometry` argument — `build_geometry` is never called anywhere in
the source.  (The width/height of the first result also exhibit the
C5 defect: `"100"` parses to `(100, None)` even for `resize`.) -/
theorem c6_equivalent_geometries_two_urls :
    compute_img c6cfg (.strD "img.jpg") "resize" "100" =
      .srcDict "/media//lt_cache/resize/100/img.jpg" "100" "" ∧
    compute_img c6cfg (.strD "img.jpg") "resize" "100x100" =
      .srcDict "/media//lt_cache/resize/100x100/img.jpg" "100" "100" ∧
    compute_img c6cfg (.strD "img.jpg") "resize" "100" ≠
      compute_img c6cfg (.strD "img.jpg") "resize" "100x100" := by
  decide

/-- C6 as amended: for a string descriptor with a parseable geometry
(dummy mode off, URL not externally qualified), the internal render
URL is `{base}lt_cache/{action}/{geometry}/{url}` with the **raw**
geometry string interpolated verbatim; requests that are semantically
identical but spelled differently therefore produce different URLs
and do not collapse to one cache key. -/
theorem c6_render_url_embeds_raw_geometry (cfg : CCfg)
    (s action geometry : String) (wh : Option Nat × Option Nat)
    (hs : s ≠ "") (hhttp : strStarts s "http" = false)
    (hgeo : geometry_parse action geometry () = .ok wh)
    (hdummy : cfg.dummy = false) :
    compute_img cfg (.strD s) action geometry =
      .srcDict (cfg.urljoin cfg.mediaUrl
          (cfg.lazyUrl ++ "lt_cache/" ++ action ++ "/" ++ geometry ++ "/" ++ s))
        (pyStrOrEmpty wh.1) (pyStrOrEmpty wh.2) := by
  simp [compute_img, exitD, pyTruthyS, hs, hhttp, hgeo, hdummy]

/-- Witness for the amended C6 at the concrete `resize`/`"100"`
request. -/
theorem c6_render_url_witness :
    geometry_parse "resize" "100" () = .ok (some 100, none) ∧
    compute_img c6cfg (.strD "img.jpg") "resize" "100" =
      .srcDict (c6cfg.urljoin c6cfg.mediaUrl
          (c6cfg.lazyUrl ++ "lt_cache/" ++ "resize" ++ "/" ++ "100" ++ "/" ++ "img.jpg"))
        (pyStrOrEmpty (some 100)) (pyStrOrEmpty none) := by
  refine ⟨by decide, ?_⟩
  exact c6_render_url_embeds_raw_geometry c6cfg "img.jpg" "resize" "100"
    (some 100, none) (by decide) (by decide) (by decide) (by decide)

/-! ## C8 — the upscale guard of `compute_img` -/

/-- C8: when the descriptor object's natural dimensions resolve (to
truthy, i.e. positive, values — the source's guard `if (s_w and
width)` itself requires truthiness) and the parsed geometry requests
*either* dimension `≥` its natural counterpart, `compute_img` builds
no transformation URL: it returns the original URL (joined onto the
media prefix, as every exit does) with the natural dimensions
(util.py:143-149).  The geometry may be of any shape — `"WxH"`,
`"W"` or `"xH"` — so single-dimension upscale requests are covered:
when the triggering dimension is the width, the width survives the
`thumbnail` derivation untouched and the first guard branch fires;
when it is the height and the width is falsy, the `thumbnail`
derivation rewrites the width to `scale(s_w, height, s_h) ≥ s_w`
(since `height ≥ s_h`), so the first guard branch still fires, and
otherwise the second branch does — every path lands on the same
natural-dimensions exit, so the conclusion does not depend on the
exact value of `scale`. -/
theorem c8_upscale_guard (cfg : CCfg) (o : ImgObject)
    (action geometry u : String) (sw sh : Nat) (w0 h0 : Option Nat)
    (hurl : quackUrl o = some u) (hu : u ≠ "")
    (hhttp : strStarts u "http" = false)
    (hsw : quackW o = some sw) (hsw0 : 0 < sw)
    (hsh : quackH o = some sh) (hsh0 : 0 < sh)
    (hgeo : geometry_parse action geometry () = .ok (w0, h0))
    (hbig : (∃ w, w0 = some w ∧ sw ≤ w) ∨ (∃ h, h0 = some h ∧ sh ≤ h)) :
    compute_img cfg (.objD o) action geometry =
      .srcDict (cfg.urljoin cfg.mediaUrl u) (decStr sw) (decStr sh) := by
  by_cases hact : action = "thumbnail"
  · subst hact
    rcases hbig with ⟨w, rfl, hle⟩ | ⟨h, rfl, hle⟩
    · -- width trigger: the (truthy) requested width survives derivation
      have hw1 : 0 < w := hsw0.trans_le hle
      have hd1 : (thumbDerive o (some w) h0).1 = some w := by
        simp [thumbDerive, pyTruthyN, hw1.ne']
      simp [compute_img, hurl, hsw, hsh, hgeo, pyTruthyS, hu, hhttp, exitD,
        pyTruthyN, pyStrOrEmpty, hd1, hsw0.ne', hsh0.ne', hw1.ne', hle]
    · -- height trigger
      have hh1 : 0 < h := hsh0.trans_le hle
      rcases w0 with _ | w
      · -- no requested width: it is derived as scale(s_w, h, s_h) ≥ s_w
        have hd1 : (thumbDerive o none (some h)).1 = some (pyScale sw h sh) := by
          simp [thumbDerive, pyTruthyN, hsw, hsh, hsw0.ne']
        have hscale : sw ≤ pyScale sw h sh :=
          (Nat.le_div_iff_mul_le hsh0).mpr (mul_le_mul_left' hle sw)
        have hpos : 0 < pyScale sw h sh := hsw0.trans_le hscale
        simp [compute_img, hurl, hsw, hsh, hgeo, pyTruthyS, hu, hhttp, exitD,
          pyTruthyN, pyStrOrEmpty, hd1, hsw0.ne', hsh0.ne', hpos.ne',
          hscale]
      · by_cases hwz : w = 0
        · -- requested width 0 is falsy: derived as scale(s_w, h, s_h) ≥ s_w
          subst hwz
          have hd1 : (thumbDerive o (some 0) (some h)).1 =
              some (pyScale sw h sh) := by
            simp [thumbDerive, pyTruthyN, hsw, hsh, hsw0.ne']
          have hscale : sw ≤ pyScale sw h sh :=
            (Nat.le_div_iff_mul_le hsh0).mpr (mul_le_mul_left' hle sw)
          have hpos : 0 < pyScale sw h sh := hsw0.trans_le hscale
          simp [compute_img, hurl, hsw, hsh, hgeo, pyTruthyS, hu, hhttp, exitD,
            pyTruthyN, pyStrOrEmpty, hd1, hsw0.ne', hsh0.ne', hpos.ne',
            hscale]
        · -- truthy requested width: it survives; either guard branch exits
          have hd1 : (thumbDerive o (some w) (some h)).1 = some w := by
            simp [thumbDerive, pyTruthyN, hwz]
          have hd2 : (thumbDerive o (some w) (some h)).2 = some h := by
            simp [thumbDerive, pyTruthyN, hh1.ne']
          by_cases hcw : sw ≤ w
          · simp [compute_img, hurl, hsw, hsh, hgeo, pyTruthyS, hu, hhttp,
              exitD, pyTruthyN, pyStrOrEmpty, hd1, hd2, hsw0.ne',
              hsh0.ne', hwz, hcw]
          · simp [compute_img, hurl, hsw, hsh, hgeo, pyTruthyS, hu, hhttp,
              exitD, pyTruthyN, pyStrOrEmpty, pyOrN, hd1, hd2, hsw0.ne',
              hsh0.ne', hwz, hcw, hh1.ne', hle]
  · -- non-thumbnail actions: no derivation, the pair is used as parsed
    rcases hbig with ⟨w, rfl, hle⟩ | ⟨h, rfl, hle⟩
    · have hw1 : 0 < w := hsw0.trans_le hle
      simp [compute_img, hurl, hsw, hsh, hgeo, pyTruthyS, hu, hhttp, exitD,
        pyTruthyN, pyStrOrEmpty, hact, hsw0.ne', hsh0.ne', hw1.ne', hle]
    · have hh1 : 0 < h := hsh0.trans_le hle
      rcases w0 with _ | w
      · simp [compute_img, hurl, hsw, hsh, hgeo, pyTruthyS, hu, hhttp, exitD,
          pyTruthyN, pyStrOrEmpty, pyOrN, hact, hsw0.ne', hsh0.ne', hh1.ne',
          hle]
      · by_cases hwz : w = 0
        · subst hwz
          simp [compute_img, hurl, hsw, hsh, hgeo, pyTruthyS, hu, hhttp, exitD,
            pyTruthyN, pyStrOrEmpty, pyOrN, hact, hsw0.ne', hsh0.ne', hh1.ne',
            hle]
        · by_cases hcw : sw ≤ w
          · simp [compute_img, hurl, hsw, hsh, hgeo, pyTruthyS, hu, hhttp,
              exitD, pyTruthyN, pyStrOrEmpty, hact, hsw0.ne', hsh0.ne', hwz,
              hcw]
          · simp [compute_img, hurl, hsw, hsh, hgeo, pyTruthyS, hu, hhttp,
              exitD, pyTruthyN, pyStrOrEmpty, pyOrN, hact, hsw0.ne', hsh0.ne',
              hwz, hcw, hh1.ne', hle]

/-- Object for the upscale-guard witness: natural size 200×100,
URL `img.jpg`. -/
def c8obj : ImgObject :=
  { attrs := { name := some "img.jpg", width := some 200, height := some 100 } }

/-- Witness for C8 at two concrete requests against the 200×100
source: the single-dimension `thumbnail "300"` (parsing to
`(300, None)`, width 300 ≥ natural 200) and the two-dimension
`resize "300x50"` both return the original URL with the natural
dimensions. -/
theorem c8_upscale_guard_witness :
    quackUrl c8obj = some "img.jpg" ∧
    quackW c8obj = some 200 ∧
    quackH c8obj = some 100 ∧
    geometry_parse "thumbnail" "300" () = .ok (some 300, none) ∧
    geometry_parse "resize" "300x50" () = .ok (some 300, some 50) ∧
    compute_img c6cfg (.objD c8obj) "thumbnail" "300" =
      .srcDict (c6cfg.urljoin c6cfg.mediaUrl "img.jpg") (decStr 200) (decStr 100) ∧
    compute_img c6cfg (.objD c8obj) "resize" "300x50" =
      .srcDict (c6cfg.urljoin c6cfg.mediaUrl "img.jpg") (decStr 200) (decStr 100) := by
  refine ⟨by decide, by decide, by decide, by decide, by decide, ?_, ?_⟩
  · exact c8_upscale_guard c6cfg c8obj "thumbnail" "300" "img.jpg" 200 100
      (some 300) none (by decide) (by decide) (by decide) (by decide)
      (by decide) (by decide) (by decide) (by decide)
      (Or.inl ⟨300, rfl, by decide⟩)
  · exact c8_upscale_guard c6cfg c8obj "resize" "300x50" "img.jpg" 200 100
      (some 300) (some 50) (by decide) (by decide) (by decide) (by decide)
      (by decide) (by decide) (by decide) (by decide)
      (Or.inl ⟨300, rfl, by decide⟩)

/-! ## C9 — metadata is set only after a successful persist -/

/-- C9: on a validated cache miss with the source present, the
positive metadata record is written only after the rendered bytes
are persisted: if the transformation fails or the storage write
fails, the request ends in an error and the cache still has no entry
for the key; if both succeed, the response carries the rendered
bytes, the cache maps the key to the digest-sharded rendered path,
and storage holds the bytes under that path. -/
theorem c9_metadata_only_after_persist (cfg : LazyThumbRenderer.GetCfg)
    (w0 : World) (action geometry sourcePath : String)
    (hv1 : strStarts (pyOsJoin cfg.thumbRoot sourcePath) "/" = false)
    (hv2 : strStarts (pyOsJoin cfg.thumbRoot sourcePath) "../" = false)
    (hv3 : action ∈ LazyThumbRenderer.allowedActions)
    (hmiss : lookupA w0.cache ("lazythumbs:" ++ cfg.digest
      (pyOsJoin cfg.thumbRoot sourcePath) action
      (LazyThumbRenderer.pySplitX geometry).1
      (LazyThumbRenderer.pySplitX geometry).2) = none)
    (hex : (lookupA w0.files (pyOsJoin cfg.thumbRoot sourcePath)).isSome = true) :
    (cfg.render (pyOsJoin cfg.thumbRoot sourcePath)
        (LazyThumbRenderer.pySplitX geometry).1
        (LazyThumbRenderer.pySplitX geometry).2 = .error () →
      (LazyThumbRenderer.get cfg w0 action geometry sourcePath).1 =
        .pyError .renderErr ∧
      (LazyThumbRenderer.get cfg w0 action geometry sourcePath).2.cache =
        w0.cache) ∧
    (∀ raw, cfg.render (pyOsJoin cfg.thumbRoot sourcePath)
        (LazyThumbRenderer.pySplitX geometry).1
        (LazyThumbRenderer.pySplitX geometry).2 = .ok raw →
      w0.saveFails = true →
      (LazyThumbRenderer.get cfg w0 action geometry sourcePath).1 =
        .pyError .saveErr ∧
      (LazyThumbRenderer.get cfg w0 action geometry sourcePath).2.cache =
        w0.cache) ∧
    (∀ raw, cfg.render (pyOsJoin cfg.thumbRoot sourcePath)
        (LazyThumbRenderer.pySplitX geometry).1
        (LazyThumbRenderer.pySplitX geometry).2 = .ok raw →
      w0.saveFails = false →
      (LazyThumbRenderer.get cfg w0 action geometry sourcePath).1 =
        .ok200 raw ∧
      lookupA (LazyThumbRenderer.get cfg w0 action geometry sourcePath).2.cache
          ("lazythumbs:" ++ cfg.digest (pyOsJoin cfg.thumbRoot sourcePath) action
            (LazyThumbRenderer.pySplitX geometry).1
            (LazyThumbRenderer.pySplitX geometry).2) =
        some ⟨LazyThumbRenderer.hashShard (cfg.digest
          (pyOsJoin cfg.thumbRoot sourcePath) action
          (LazyThumbRenderer.pySplitX geometry).1
          (LazyThumbRenderer.pySplitX geometry).2), false⟩ ∧
      lookupA (LazyThumbRenderer.get cfg w0 action geometry sourcePath).2.files
          (LazyThumbRenderer.hashShard (cfg.digest
            (pyOsJoin cfg.thumbRoot sourcePath) action
            (LazyThumbRenderer.pySplitX geometry).1
            (LazyThumbRenderer.pySplitX geometry).2)) = some raw) := by
  refine ⟨fun hr => ?_, fun raw hr hs => ?_, fun raw hr hs => ?_⟩
  · simp [LazyThumbRenderer.get, LazyThumbRenderer.render_and_save, cacheGetW,
      fsExistsW, fsSaveW, cacheSetW, lookupA, hv1, hv2, hv3, hmiss, hex, hr]
  · simp [LazyThumbRenderer.get, LazyThumbRenderer.render_and_save, cacheGetW,
      fsExistsW, fsSaveW, cacheSetW, lookupA, hv1, hv2, hv3, hmiss, hex, hr, hs]
  · simp [LazyThumbRenderer.get, LazyThumbRenderer.render_and_save, cacheGetW,
      fsExistsW, fsSaveW, cacheSetW, lookupA, hv1, hv2, hv3, hmiss, hex, hr, hs]

/-- Configuration for the C9 witness: the transformation fails
(e.g. the decode step raises on a corrupt source). -/
def c9cfg : LazyThumbRenderer.GetCfg :=
  { thumbRoot := "src"
    lazyRoot := ""
    digest := fun _ _ _ _ => "abcdef"
    render := fun _ _ _ => .error () }

/-- World for the C9 witness: empty cache, source present in storage. -/
def c9world : World :=
  { cache := []
    files := [("src/img.jpg", "RAW")]
    suspicious := []
    saveFails := false
    log := [] }

/-- Witness for C9 at a concrete failing transformation: the request
errors and the cache is left without any entry. -/
theorem c9_metadata_witness :
    lookupA c9world.cache ("lazythumbs:" ++ c9cfg.digest
      (pyOsJoin c9cfg.thumbRoot "img.jpg") "thumbnail"
      (LazyThumbRenderer.pySplitX "100").1
      (LazyThumbRenderer.pySplitX "100").2) = none ∧
    (lookupA c9world.files (pyOsJoin c9cfg.thumbRoot "img.jpg")).isSome = true ∧
    ((LazyThumbRenderer.get c9cfg c9world "thumbnail" "100" "img.jpg").1 =
      .pyError .renderErr ∧
    (LazyThumbRenderer.get c9cfg c9world "thumbnail" "100" "img.jpg").2.cache =
      c9world.cache) := by
  refine ⟨by decide, by decide, ?_⟩
  exact (c9_metadata_only_after_persist c9cfg c9world "thumbnail" "100" "img.jpg"
    (by decide) (by decide) (by decide) (by decide) (by decide)).1 (by decide)

/-! ## C10 — parse-then-canonicalise roundtrip for `thumbnail` -/

/-- Every digit character produced by `Nat.digitChar` below 10 is a
digit. -/
theorem digitChar_isDigit : ∀ n, n < 10 → (Nat.digitChar n).isDigit = true := by
  decide

/-- `digitVal` inverts `Nat.digitChar` below 10. -/
theorem digitVal_digitChar : ∀ n, n < 10 → digitVal (Nat.digitChar n) = n := by
  decide

/-- With sufficient fuel the digit expansion is never empty. -/
theorem natToDecAux_ne_nil : ∀ fuel n, n < fuel → natToDecAux fuel n ≠ [] := by
  intro fuel
  induction fuel with
  | zero => intro n h; omega
  | succ f ih =>
    intro n h
    unfold natToDecAux
    by_cases h10 : n < 10 <;> simp [h10]

/-- With sufficient fuel the digit expansion consists of digits. -/
theorem natToDecAux_all : ∀ fuel n, n < fuel →
    (natToDecAux fuel n).all Char.isDigit = true := by
  intro fuel
  induction fuel with
  | zero => intro n h; omega
  | succ f ih =>
    intro n h
    unfold natToDecAux
    by_cases h10 : n < 10
    · simp [h10, digitChar_isDigit n h10]
    · have hd : n / 10 < n := Nat.div_lt_self (by omega) (by omega)
      simp [h10, List.all_append, ih (n / 10) (by omega),
        digitChar_isDigit (n % 10) (Nat.mod_lt n (by omega))]

/-- Appending one digit multiplies the parsed value by ten and adds
the digit. -/
theorem pyIntL_append (l : List Char) (c : Char) :
    pyIntL (l ++ [c]) = pyIntL l * 10 + digitVal c := by
  simp [pyIntL, List.foldl_append]

/-- With sufficient fuel, `int()` inverts the digit expansion. -/
theorem pyIntL_natToDecAux : ∀ fuel n, n < fuel →
    pyIntL (natToDecAux fuel n) = n := by
  intro fuel
  induction fuel with
  | zero => intro n h; omega
  | succ f ih =>
    intro n h
    unfold natToDecAux
    by_cases h10 : n < 10
    · simp [h10, pyIntL, digitVal_digitChar n h10]
    · have hd : n / 10 < n := Nat.div_lt_self (by omega) (by omega)
      rw [if_neg h10, pyIntL_append, ih (n / 10) (by omega),
        digitVal_digitChar (n % 10) (Nat.mod_lt n (by omega))]
      omega

/-- The decimal expansion of `n` is non-empty. -/
theorem natToDec_ne_nil (n : Nat) : natToDec n ≠ [] :=
  natToDecAux_ne_nil (n + 1) n (Nat.lt_succ_self n)

/-- The decimal expansion of `n` consists of digits. -/
theorem natToDec_all (n : Nat) : (natToDec n).all Char.isDigit = true :=
  natToDecAux_all (n + 1) n (Nat.lt_succ_self n)

/-- Python `int()` inverts Python `str()` on naturals. -/
theorem pyIntL_natToDec (n : Nat) : pyIntL (natToDec n) = n :=
  pyIntL_natToDecAux (n + 1) n (Nat.lt_succ_self n)

/-- A pure digit run is consumed whole with nothing left. -/
theorem splitDigits_all_digits (l : List Char) (h : l.all Char.isDigit = true) :
    splitDigits l = (l, []) := by
  induction l with
  | nil => rfl
  | cons c t ih =>
    simp only [List.all_cons, Bool.and_eq_true] at h
    simp [splitDigits, h.1, ih h.2]

/-- A digit run followed by `x` splits exactly at the `x`. -/
theorem splitDigits_append_x (l r : List Char) (h : l.all Char.isDigit = true) :
    splitDigits (l ++ 'x' :: r) = (l, 'x' :: r) := by
  induction l with
  | nil =>
    have hx : ('x').isDigit = false := by decide
    simp [splitDigits, hx]
  | cons c t ih =>
    simp only [List.all_cons, Bool.and_eq_true] at h
    simp [splitDigits, h.1, ih h.2]

/-- The width regex on a bare decimal `W` captures the whole string. -/
theorem widthMatch_dec (W : Nat) : widthMatch (natToDec W) = some (natToDec W) := by
  simp [widthMatch, splitDigits_all_digits _ (natToDec_all W), natToDec_ne_nil W]

/-- The height regex does not match a bare decimal. -/
theorem heightMatch_dec (W : Nat) : heightMatch (natToDec W) = none := by
  simp [heightMatch, splitDigits_all_digits _ (natToDec_all W)]

/-- The width regex on `WxH` captures `W`. -/
theorem widthMatch_decx (W H : Nat) :
    widthMatch (natToDec W ++ 'x' :: natToDec H) = some (natToDec W) := by
  simp [widthMatch, splitDigits_append_x _ _ (natToDec_all W), natToDec_ne_nil W,
    natToDec_ne_nil H, natToDec_all H]

/-- The height regex on `WxH` captures `H`. -/
theorem heightMatch_decx (W H : Nat) :
    heightMatch (natToDec W ++ 'x' :: natToDec H) = some (natToDec H) := by
  simp [heightMatch, splitDigits_append_x _ _ (natToDec_all W),
    natToDec_ne_nil H, natToDec_all H]

/-- The width regex requires a leading digit, so `xH` has no width. -/
theorem widthMatch_x (H : Nat) : widthMatch ('x' :: natToDec H) = none := by
  have hx : ('x').isDigit = false := by decide
  simp [widthMatch, splitDigits, hx]

/-- The height regex on `xH` captures `H`. -/
theorem heightMatch_x (H : Nat) : heightMatch ('x' :: natToDec H) = some (natToDec H) := by
  have hx : ('x').isDigit = false := by decide
  simp [heightMatch, splitDigits, hx, natToDec_ne_nil H, natToDec_all H]

/-- C10: for the `thumbnail` action, parsing and then canonicalising
is the identity on canonical geometry strings built from positive
decimals without leading zeros: `build_geometry` applied to the pair
returned by `geometry_parse` gives back exactly `"W"`, `"WxH"` and
`"xH"`. -/
theorem c10_parse_build_roundtrip (W H : Nat) (hW : 0 < W) (hH : 0 < H) :
    thumbRound (decStr W) = .ok (decStr W) ∧
    thumbRound (decStr W ++ "x" ++ decStr H) = .ok (decStr W ++ "x" ++ decStr H) ∧
    thumbRound ("x" ++ decStr H) = .ok ("x" ++ decStr H) := by
  have hd1 : (decStr W).data = natToDec W := rfl
  have hd2 : ("x" ++ decStr H).data = 'x' :: natToDec H := by
    rw [String.data_append]; rfl
  have hd3 : (decStr W ++ "x" ++ decStr H).data = natToDec W ++ 'x' :: natToDec H := by
    rw [String.data_append, String.data_append, hd1,
      show "x".data = ['x'] from by decide,
      show (decStr H).data = natToDec H from rfl]
    simp
  refine ⟨?_, ?_, ?_⟩
  · simp [thumbRound, geometry_parse, hd1, widthMatch_dec, heightMatch_dec,
      pyIntL_natToDec, build_geometry, pyTruthyN, hW.ne', pyStrN, Except.map,
      decStr]
  · simp [thumbRound, geometry_parse, hd3, widthMatch_decx, heightMatch_decx,
      pyIntL_natToDec, build_geometry, pyTruthyN, hW.ne', hH.ne', pyStrN,
      Except.map, decStr]
  · simp [thumbRound, geometry_parse, hd2, widthMatch_x, heightMatch_x,
      pyIntL_natToDec, build_geometry, pyTruthyN, hH.ne', pyStrN, Except.map,
      decStr]

/-- Witness for C10 at `W = 100`, `H = 50`. -/
theorem c10_roundtrip_witness :
    0 < 100 ∧ 0 < 50 ∧
    (thumbRound (decStr 100) = .ok (decStr 100) ∧
     thumbRound (decStr 100 ++ "x" ++ decStr 50) =
       .ok (decStr 100 ++ "x" ++ decStr 50) ∧
     thumbRound ("x" ++ decStr 50) = .ok ("x" ++ decStr 50)) := by
  exact ⟨by decide, by decide, c10_parse_build_roundtrip 100 50 (by decide) (by decide)⟩
